import Mathlib

/-!
Verification of the resource-mapping layer of the `up-bank-api` client
(`upbankapi/models.py`) against its specification.

The raw API payloads are modelled by an inductive `Json` type standing for
the Python values produced by `json` deserialization (dicts, lists, strings,
ints, floats, bools, None).  Each model constructor (`Transaction.__init__`,
`Account.__init__`, `Webhook.__init__`, `WebhookLog.__init__`,
`WebhookEvent.__init__`) is embedded as a function `... → Option <Entity>`:
`none` models the constructor raising (KeyError / TypeError / ValueError),
`some` models a fully constructed object.  Field extraction follows the
source's type annotations: an attribute annotated `str` must be a JSON
string, one annotated `Optional[str]` must be a string or null, and so on;
a value of any other runtime type makes the embedded constructor fail where
Python would have stored an ill-typed value.

Python floats are modelled exactly: `float(<string>)` is embedded as parsing
the decimal literal to a rational and correctly rounding it (round to
nearest, ties to even) to an IEEE-754 binary64 value, represented as an
exact rational number (`Frac`).  Values Python would turn into an IEEE
infinity or NaN have no rational representation and make the embedded
conversion fail; underscored literals (`1_0`) accepted by Python are not
modelled.  A custom fraction type is used instead of `ℚ` so that every
operation evaluates by kernel reduction; `Frac.toRat` bridges to `ℚ` in
theorem statements.
-/

namespace UpBank

/-- Exact rational numbers with executable, kernel-reducible arithmetic.
`den` is kept positive and `num`/`den` coprime by the `mkFrac` smart
constructor, so the structural equality of two constructed values agrees
with equality of the rationals they denote. -/
structure Frac where
  num : Int
  den : Nat
deriving DecidableEq

/-- Normalizing constructor: divides out the gcd.  (Never called with a zero
denominator by the code below; the `d = 0` branch is a junk value.) -/
def mkFrac (n : Int) (d : Nat) : Frac :=
  if d = 0 then ⟨0, 1⟩
  else
    let g := n.natAbs.gcd d
    ⟨n / (g : Int), d / g⟩

/-- The rational number a `Frac` denotes. -/
def Frac.toRat (q : Frac) : ℚ := (q.num : ℚ) / (q.den : ℚ)

/-- Floor of `log₂ n` for `n ≥ 1` (0 at 0), by structural recursion so that
it evaluates in the kernel (`Nat.log2` is well-founded and does not). -/
def natLog2Aux : Nat → Nat → Nat
  | 0, _ => 0
  | fuel + 1, m => if m ≥ 2 then natLog2Aux fuel (m / 2) + 1 else 0

def natLog2 (n : Nat) : Nat := natLog2Aux n n

/-- `2 ^ c ≤ |q|`, for an integer exponent `c` of either sign. -/
def pow2LeAbs (c : Int) (q : Frac) : Bool :=
  if 0 ≤ c then decide ((2 ^ c.toNat) * q.den ≤ q.num.natAbs)
  else decide (q.den ≤ (2 ^ (-c).toNat) * q.num.natAbs)

/-- Floor of `log₂ |q|` for `q ≠ 0` (junk at 0): the unique `e` with
`2 ^ e ≤ |q| < 2 ^ (e + 1)`. -/
def fracFloorLog2 (q : Frac) : Int :=
  let c : Int := (natLog2 q.num.natAbs : Int) - (natLog2 q.den : Int)
  if pow2LeAbs (c + 1) q then c + 1
  else if !pow2LeAbs c q then c - 1
  else c

/-- Round `N / D` (`D > 0`) to the nearest integer, ties to even. -/
def roundHalfEvenInt (N : Int) (D : Nat) : Int :=
  let f := N.fdiv (D : Int)
  let r2 := 2 * (N - f * (D : Int))
  if r2 < (D : Int) then f
  else if (D : Int) < r2 then f + 1
  else if f % 2 = 0 then f else f + 1

/-- Round an exact rational to the nearest IEEE-754 binary64 value
(round to nearest, ties to even), as an exact rational.  Subnormal spacing
is floored at `2 ^ (-1074)`; overflow past the finite range is not detected
here (see `doubleOverflows`). -/
def roundToDouble (q : Frac) : Frac :=
  if q.num = 0 then ⟨0, 1⟩
  else
    let e := fracFloorLog2 q
    let s := max (e - 52) (-1074)
    let m :=
      if s ≤ 0 then roundHalfEvenInt (q.num * (2 ^ (-s).toNat : Nat)) q.den
      else roundHalfEvenInt q.num (q.den * 2 ^ s.toNat)
    if 0 ≤ s then ⟨m * (2 ^ s.toNat : Nat), 1⟩
    else mkFrac m (2 ^ (-s).toNat)

/-- `2 ^ 1024 ≤ |q|`: the rounded value falls outside the finite binary64
range, where Python's conversions produce an IEEE infinity (for `float` of
a string) which has no rational representation in this embedding.
(Equivalent log₂ form: `|num| ≥ 2 ^ 1024 · den` iff `⌊|num| / den⌋ ≥ 2 ^ 1024`,
an integer threshold, iff its log₂ is at least 1024.) -/
def doubleOverflows (q : Frac) : Bool :=
  decide (1024 ≤ natLog2 (q.num.natAbs / q.den))

/-! ### Parsing Python `float` literals -/

def isPySpace (c : Char) : Bool :=
  (c == ' ') || (c == '\t') || (c == '\n') || (c == '\r') || (c == '\x0b') || (c == '\x0c')

def digitVal (c : Char) : Nat := c.toNat - '0'.toNat

def digitsToNat (cs : List Char) : Nat :=
  cs.foldl (fun acc c => 10 * acc + digitVal c) 0

def allDigits (cs : List Char) : Bool := cs.all Char.isDigit

/-- Optional exponent suffix of a float literal: empty, or `e`/`E`, an
optional sign and a nonempty digit string. -/
def parseExponent : List Char → Option Int
  | [] => some 0
  | e :: rest =>
    if e = 'e' ∨ e = 'E' then
      match rest with
      | '+' :: ds => if ds ≠ [] ∧ allDigits ds then some ((digitsToNat ds : Int)) else none
      | '-' :: ds => if ds ≠ [] ∧ allDigits ds then some (-(digitsToNat ds : Int)) else none
      | ds => if ds ≠ [] ∧ allDigits ds then some ((digitsToNat ds : Int)) else none
    else none

/-- Digits with an optional decimal point (at least one digit in total),
returned as (integer-and-fraction digits, fraction length, rest). -/
def parseMantissa (cs : List Char) : Option (Nat × Nat × List Char) :=
  let intPart := cs.takeWhile Char.isDigit
  let rest1 := cs.dropWhile Char.isDigit
  match rest1 with
  | '.' :: rest2 =>
    let fracPart := rest2.takeWhile Char.isDigit
    let rest3 := rest2.dropWhile Char.isDigit
    if intPart = [] ∧ fracPart = [] then none
    else some (digitsToNat (intPart ++ fracPart), fracPart.length, rest3)
  | _ =>
    if intPart = [] then none else some (digitsToNat intPart, 0, rest1)

/-- The exact rational `digits · 10 ^ (exp - fracLen)`. -/
def decimalValue (digits fracLen : Nat) (exp : Int) : Frac :=
  let e := exp - (fracLen : Int)
  if 0 ≤ e then ⟨(digits : Int) * (10 ^ e.toNat : Nat), 1⟩
  else mkFrac (digits : Int) (10 ^ (-e).toNat)

def parseUnsignedDecimal (cs : List Char) : Option Frac :=
  match parseMantissa cs with
  | none => none
  | some (digits, fracLen, rest) =>
    match parseExponent rest with
    | none => none
    | some exp => some (decimalValue digits fracLen exp)

/-- The exact rational denoted by a decimal float literal, per Python's
`float(str)` grammar (sign, digits, optional point and exponent, surrounding
whitespace).  `inf`/`nan` and digit-group underscores are not modelled. -/
def parseDecimalLit (s : String) : Option Frac :=
  let cs := ((s.data.dropWhile isPySpace).reverse.dropWhile isPySpace).reverse
  match cs with
  | '+' :: rest => parseUnsignedDecimal rest
  | '-' :: rest => (parseUnsignedDecimal rest).map (fun q => ⟨-q.num, q.den⟩)
  | rest => parseUnsignedDecimal rest

/-- Python `float(<string>)`: parse the decimal literal exactly, then round
to the nearest binary64 value.  An overflow to an IEEE infinity fails. -/
def pyFloat (s : String) : Option Frac :=
  match parseDecimalLit s with
  | none => none
  | some q =>
    let r := roundToDouble q
    if doubleOverflows r then none else some r

/-! ### The raw JSON value model -/

/-- Python values produced by JSON deserialization: None, bools, strings,
ints, floats (as the exact rational value of the binary64 float), lists and
dicts (association lists; Python dicts cannot hold duplicate keys, and the
`jsonLoads` parser below keeps at most one entry per key). -/
inductive Json where
  | null : Json
  | bool (b : Bool) : Json
  | str (s : String) : Json
  | int (n : Int) : Json
  | flt (q : Frac) : Json
  | arr (items : List Json) : Json
  | obj (fields : List (String × Json)) : Json

def findField : List (String × Json) → String → Option Json
  | [], _ => none
  | (k, v) :: rest, key => if k = key then some v else findField rest key

/-- Python `d[key]` on a dict: `none` models a raised KeyError; subscripting
any non-dict value with a string key raises (TypeError) as well. -/
def Json.find? : Json → String → Option Json
  | .obj fs, key => findField fs key
  | _, _ => none

/-- Python `d.get(key)`: `None` for a missing key; calling `.get` on a
non-dict raises (AttributeError), modelled by `none`. -/
def Json.pyGet : Json → String → Option Json
  | .obj fs, key => some ((findField fs key).getD Json.null)
  | _, _ => none

/-- Python truthiness of a JSON value. -/
def Json.truthy : Json → Bool
  | .null => false
  | .bool b => b
  | .str s => decide (s ≠ "")
  | .int n => decide (n ≠ 0)
  | .flt q => decide (q.num ≠ 0)
  | .arr items => !items.isEmpty
  | .obj fs => !fs.isEmpty

/-- A value read into a field annotated `str` must be a JSON string. -/
def Json.asStr? : Json → Option String
  | .str s => some s
  | _ => none

def Json.asArr? : Json → Option (List Json)
  | .arr items => some items
  | _ => none

/-- A value read into a field annotated `Optional[str]`: null or a string. -/
def optStr? : Json → Option (Option String)
  | .null => some none
  | .str s => some (some s)
  | _ => none

/-- A value read into a field annotated `Optional[int]`: null or an int. -/
def optInt? : Json → Option (Option Int)
  | .null => some none
  | .int n => some (some n)
  | _ => none

/-! ### `datetime.fromisoformat` (CPython ≤ 3.10 grammar)

`YYYY-MM-DD[*HH[:MM[:SS[.fff[fff]]]][(+|-)HH:MM[:SS[.ffffff]]]]`, the
separator `*` being an arbitrary single character.  Each two-digit field is
an exact run of ASCII digits; the datetime constructor then validates the
component ranges. -/

/-- An aware or naive Python `datetime`: date and time components plus an
optional UTC offset in microseconds. -/
structure PyDateTime where
  year : Nat
  month : Nat
  day : Nat
  hour : Nat
  minute : Nat
  second : Nat
  microsecond : Nat
  tzOffsetMicros : Option Int
deriving DecidableEq

def isLeapYear (y : Nat) : Bool :=
  decide ((y % 4 = 0 ∧ y % 100 ≠ 0) ∨ y % 400 = 0)

def daysInMonth (y m : Nat) : Nat :=
  if m = 2 then (if isLeapYear y then 29 else 28)
  else if m = 4 ∨ m = 6 ∨ m = 9 ∨ m = 11 then 30
  else 31

/-- The `timezone` constructor's strict `±24h` bound on the offset. -/
def validTz : Option Int → Bool
  | none => true
  | some off => decide (-86400000000 < off ∧ off < 86400000000)

/-- Range checks done by the `datetime` constructor on each component. -/
def mkPyDateTime (y mo d h mi s us : Nat) (tz : Option Int) : Option PyDateTime :=
  if (1 ≤ y ∧ y ≤ 9999 ∧ 1 ≤ mo ∧ mo ≤ 12 ∧ 1 ≤ d ∧ d ≤ daysInMonth y mo
      ∧ h ≤ 23 ∧ mi ≤ 59 ∧ s ≤ 59 ∧ us ≤ 999999) ∧ validTz tz then
    some ⟨y, mo, d, h, mi, s, us, tz⟩
  else none

def digit2 (a b : Char) : Option Nat :=
  if a.isDigit ∧ b.isDigit then some (10 * digitVal a + digitVal b) else none

/-- The 3- or 6-digit fractional-seconds suffix, in microseconds. -/
def parseFraction (cs : List Char) : Option Nat :=
  if cs.length = 3 ∧ allDigits cs then some (digitsToNat cs * 1000)
  else if cs.length = 6 ∧ allDigits cs then some (digitsToNat cs)
  else none

/-- CPython's `_parse_hh_mm_ss_ff`: `HH[:MM[:SS[.fff[fff]]]]` with nothing
following. -/
def parse_hh_mm_ss_ff (cs : List Char) : Option (Nat × Nat × Nat × Nat) :=
  match cs with
  | a :: b :: rest =>
    (match digit2 a b, rest with
     | some hh, [] => some (hh, 0, 0, 0)
     | some hh, ':' :: c :: d :: rest2 =>
       (match digit2 c d, rest2 with
        | some mm, [] => some (hh, mm, 0, 0)
        | some mm, ':' :: e :: f :: rest3 =>
          (match digit2 e f, rest3 with
           | some ss, [] => some (hh, mm, ss, 0)
           | some ss, '.' :: fr => (parseFraction fr).map (fun us => (hh, mm, ss, us))
           | _, _ => none)
        | _, _ => none)
     | _, _ => none)
  | _ => none

/-- Index of the character splitting time from timezone: the first `-` if
any, else the first `+` (CPython checks `-` first). -/
def findSignIdx (cs : List Char) : Option Nat :=
  match cs.findIdx? (fun c => c == '-') with
  | some i => some i
  | none => cs.findIdx? (fun c => c == '+')

/-- CPython's `_parse_isoformat_time`: the clock part, and the timezone
offset in microseconds (an all-zero offset is UTC, offset 0). -/
def parseTimePart (tstr : List Char) : Option ((Nat × Nat × Nat × Nat) × Option Int) :=
  match findSignIdx tstr with
  | none => (parse_hh_mm_ss_ff tstr).map (fun t => (t, none))
  | some i =>
    let timestr := tstr.take i
    let tzstr := tstr.drop (i + 1)
    match parse_hh_mm_ss_ff timestr with
    | none => none
    | some t =>
      if tzstr.length = 5 ∨ tzstr.length = 8 ∨ tzstr.length = 15 then
        match parse_hh_mm_ss_ff tzstr with
        | none => none
        | some (th, tm, ts, tus) =>
          if th = 0 ∧ tm = 0 ∧ ts = 0 ∧ tus = 0 then some (t, some 0)
          else
            let mag : Int := (((th * 3600 + tm * 60 + ts) * 1000000 + tus : Nat) : Int)
            let sign : Int := if tstr.get? i = some '-' then -1 else 1
            some (t, some (sign * mag))
      else none

/-- `datetime.fromisoformat` on a string (a non-string argument raises, which
callers below model by requiring a JSON string first). -/
def fromisoformat (s : String) : Option PyDateTime :=
  match s.data with
  | y1 :: y2 :: y3 :: y4 :: s1 :: m1 :: m2 :: s2 :: d1 :: d2 :: rest =>
    if y1.isDigit ∧ y2.isDigit ∧ y3.isDigit ∧ y4.isDigit ∧ s1 = '-'
        ∧ m1.isDigit ∧ m2.isDigit ∧ s2 = '-' ∧ d1.isDigit ∧ d2.isDigit then
      let y := digitsToNat [y1, y2, y3, y4]
      let mo := 10 * digitVal m1 + digitVal m2
      let dd := 10 * digitVal d1 + digitVal d2
      match rest with
      | [] => mkPyDateTime y mo dd 0 0 0 0 none
      | [_] => none
      | _ :: tstr =>
        match parseTimePart tstr with
        | none => none
        | some ((hh, mi, ss, us), tz) => mkPyDateTime y mo dd hh mi ss us tz
    else none
  | _ => none

/-! ### `json.loads` (strict mode)

A recursive-descent parser for JSON text, used by `WebhookLog.__init__` to
decode the nested delivery-request body.  Faithful to Python's strict
decoder: JSON whitespace only, no leading zeros or plus signs on numbers,
integer literals become ints and fraction/exponent literals become binary64
floats, strings reject raw control characters and understand the standard
escapes.  Not modelled: the non-standard `NaN`/`Infinity` literals (they
have no rational value here) and `\uXXXX` surrogate pairing (each escape
becomes one code unit via `Char.ofNat`).  Recursion is bounded by a fuel
argument that the top-level entry point sets larger than the input length,
which any parse can consume. -/

def isJsonWs (c : Char) : Bool :=
  (c == ' ') || (c == '\t') || (c == '\n') || (c == '\r')

def skipWs : List Char → List Char
  | [] => []
  | c :: rest => if isJsonWs c then skipWs rest else c :: rest

def lbrace : Char := Char.ofNat 123

def rbrace : Char := Char.ofNat 125

def hexVal? (c : Char) : Option Nat :=
  if c.isDigit then some (digitVal c)
  else if 'a' ≤ c ∧ c ≤ 'f' then some (c.toNat - 'a'.toNat + 10)
  else if 'A' ≤ c ∧ c ≤ 'F' then some (c.toNat - 'A'.toNat + 10)
  else none

/-- Body of a JSON string after the opening quote; `acc` holds the parsed
characters in reverse. -/
def parseJStrAux : List Char → List Char → Option (String × List Char)
  | acc, '"' :: rest => some (String.mk acc.reverse, rest)
  | acc, '\\' :: 'u' :: a :: b :: c :: d :: rest =>
    (match hexVal? a, hexVal? b, hexVal? c, hexVal? d with
     | some ha, some hb, some hc, some hd =>
       parseJStrAux (Char.ofNat (((ha * 16 + hb) * 16 + hc) * 16 + hd) :: acc) rest
     | _, _, _, _ => none)
  | acc, '\\' :: e :: rest =>
    (match e with
     | '"' => parseJStrAux ('"' :: acc) rest
     | '\\' => parseJStrAux ('\\' :: acc) rest
     | '/' => parseJStrAux ('/' :: acc) rest
     | 'b' => parseJStrAux ('\x08' :: acc) rest
     | 'f' => parseJStrAux ('\x0c' :: acc) rest
     | 'n' => parseJStrAux ('\n' :: acc) rest
     | 'r' => parseJStrAux ('\r' :: acc) rest
     | 't' => parseJStrAux ('\t' :: acc) rest
     | _ => none)
  | acc, ch :: rest =>
    if ch.toNat < 32 then none else parseJStrAux (ch :: acc) rest
  | _, [] => none

/-- JSON number grammar: `-? (0 | [1-9][0-9]*) (\.[0-9]+)? ([eE][-+]?[0-9]+)?`.
A plain integer literal becomes an int; a literal with a fraction or
exponent goes through `float()`, i.e. binary64 rounding. -/
def parseJNum (cs : List Char) : Option (Json × List Char) :=
  let (neg, cs1) : Bool × List Char :=
    match cs with
    | '-' :: rest => (true, rest)
    | _ => (false, cs)
  let intPart := cs1.takeWhile Char.isDigit
  let rest1 := cs1.dropWhile Char.isDigit
  let intOk : Bool :=
    match intPart with
    | [] => false
    | ['0'] => true
    | '0' :: _ => false
    | _ => true
  if !intOk then none
  else
    let (fracPart, rest2) : List Char × List Char :=
      match rest1 with
      | '.' :: r => (r.takeWhile Char.isDigit, r.dropWhile Char.isDigit)
      | _ => ([], rest1)
    let hadPoint : Bool := match rest1 with | '.' :: _ => true | _ => false
    if hadPoint ∧ fracPart = [] then none
    else
      let (hasExp, expVal, rest3) : Bool × Option Int × List Char :=
        match rest2 with
        | 'e' :: '+' :: r => (true, if (r.takeWhile Char.isDigit) ≠ [] then some ((digitsToNat (r.takeWhile Char.isDigit) : Int)) else none, r.dropWhile Char.isDigit)
        | 'E' :: '+' :: r => (true, if (r.takeWhile Char.isDigit) ≠ [] then some ((digitsToNat (r.takeWhile Char.isDigit) : Int)) else none, r.dropWhile Char.isDigit)
        | 'e' :: '-' :: r => (true, if (r.takeWhile Char.isDigit) ≠ [] then some (-(digitsToNat (r.takeWhile Char.isDigit) : Int)) else none, r.dropWhile Char.isDigit)
        | 'E' :: '-' :: r => (true, if (r.takeWhile Char.isDigit) ≠ [] then some (-(digitsToNat (r.takeWhile Char.isDigit) : Int)) else none, r.dropWhile Char.isDigit)
        | 'e' :: r => (true, if (r.takeWhile Char.isDigit) ≠ [] then some ((digitsToNat (r.takeWhile Char.isDigit) : Int)) else none, r.dropWhile Char.isDigit)
        | 'E' :: r => (true, if (r.takeWhile Char.isDigit) ≠ [] then some ((digitsToNat (r.takeWhile Char.isDigit) : Int)) else none, r.dropWhile Char.isDigit)
        | _ => (false, some 0, rest2)
      match expVal with
      | none => none
      | some ex =>
        if !hadPoint ∧ !hasExp then
          let n : Int := (digitsToNat intPart : Int)
          some (.int (if neg then -n else n), rest3)
        else
          let digits := digitsToNat (intPart ++ fracPart)
          let q := decimalValue digits fracPart.length ex
          let signed : Frac := if neg then ⟨-q.num, q.den⟩ else q
          let r := roundToDouble signed
          if doubleOverflows r then none else some (.flt r, rest3)

/-- Add a parsed field on the left of later fields, Python's
last-occurrence-wins dict semantics: a later duplicate key shadows this
one. -/
def consField (k : String) (v : Json) (fields : List (String × Json)) :
    List (String × Json) :=
  if (findField fields k).isSome then fields else (k, v) :: fields

mutual

def parseJVal : Nat → List Char → Option (Json × List Char)
  | 0, _ => none
  | fuel + 1, cs =>
    match skipWs cs with
    | 'n' :: 'u' :: 'l' :: 'l' :: rest => some (.null, rest)
    | 't' :: 'r' :: 'u' :: 'e' :: rest => some (.bool true, rest)
    | 'f' :: 'a' :: 'l' :: 's' :: 'e' :: rest => some (.bool false, rest)
    | '"' :: rest => (parseJStrAux [] rest).map (fun p => (.str p.1, p.2))
    | '[' :: rest =>
      (match skipWs rest with
       | ']' :: r2 => some (.arr [], r2)
       | r => (parseJItems fuel r).map (fun p => (.arr p.1, p.2)))
    | c :: rest =>
      if c = lbrace then
        match skipWs rest with
        | r =>
          if r.head? = some rbrace then some (.obj [], r.tail)
          else (parseJFields fuel r).map (fun p => (.obj p.1, p.2))
      else parseJNum (c :: rest)
    | [] => none

/-- Comma-separated values of an array, positioned at the first value. -/
def parseJItems : Nat → List Char → Option (List Json × List Char)
  | 0, _ => none
  | fuel + 1, cs =>
    match parseJVal fuel cs with
    | none => none
    | some (v, rest) =>
      match skipWs rest with
      | ',' :: r2 => (parseJItems fuel r2).map (fun p => (v :: p.1, p.2))
      | ']' :: r2 => some ([v], r2)
      | _ => none

/-- Comma-separated `"key": value` pairs of an object, positioned at the
first key. -/
def parseJFields : Nat → List Char → Option (List (String × Json) × List Char)
  | 0, _ => none
  | fuel + 1, cs =>
    match skipWs cs with
    | '"' :: rest =>
      (match parseJStrAux [] rest with
       | none => none
       | some (k, r1) =>
         match skipWs r1 with
         | ':' :: r2 =>
           (match parseJVal fuel r2 with
            | none => none
            | some (v, r3) =>
              match skipWs r3 with
              | ',' :: r4 => (parseJFields fuel r4).map (fun p => (consField k v p.1, p.2))
              | c :: r4 => if c = rbrace then some ([(k, v)], r4) else none
              | [] => none)
         | _ => none)
    | _ => none

end

/-- Python `json.loads`: parse one JSON value and require only whitespace
after it. -/
def jsonLoads (s : String) : Option Json :=
  match parseJVal (2 * s.length + 2) s.data with
  | some (v, rest) => if skipWs rest = [] then some v else none
  | none => none

/-! ### The model classes (`upbankapi/models.py`)

Each `__init__` is embedded as `init : Json → Option <Entity>`: `none`
models the constructor raising before completing, `some` a fully
constructed object.  The match chains below follow the source's statement
order exactly; matching a lookup result against `some (.str x)` models a
field read annotated `str` (the subscript raising KeyError on a missing
key, and any non-string value being ill-typed for the annotation).  The
`client` back-reference and the `raw` payload copy carry no information
about the mapping and are omitted from the entity records. -/

/-- Modelled from the spec: the constant `TRANSACTION_SETTLED` is imported
from `upbankapi/const.py`, which is not part of the sources; per the spec a
transaction's `status` is either `"HELD"` or `"SETTLED"` and `pending` is
derived as `status ≠ SETTLED`. -/
def TRANSACTION_SETTLED : String := "SETTLED"

/-- Python `float(x)` applied to a JSON value: strings are parsed and
rounded, ints converted (an int beyond the binary64 range raises
OverflowError), floats are returned as is, bools are 1.0/0.0, anything else
raises TypeError. -/
def pyFloatOfJson : Json → Option Frac
  | .str s => pyFloat s
  | .int n =>
    let r := roundToDouble ⟨n, 1⟩
    if doubleOverflows r then none else some r
  | .flt q => some q
  | .bool b => some (if b then ⟨1, 1⟩ else ⟨0, 1⟩)
  | _ => none

/-- The pattern `datetime.fromisoformat(x) if x else None` applied to the
raw `settledAt` value: a falsy value yields None, a truthy one must be a
string parseable as a timestamp. -/
def optionalTimestamp (j : Json) : Option (Option PyDateTime) :=
  if j.truthy then (j.asStr?.bind fromisoformat).map some else some none

/-- The pattern `rel["data"]["id"] if rel["data"] else None` applied to the
raw `data` value of an optional relationship. -/
def optionalRelId (data : Json) : Option (Option String) :=
  if data.truthy then ((data.find? "id").bind Json.asStr?).map some
  else some none

structure Transaction where
  id : String
  status : String
  pending : Bool
  raw_text : Option String
  description : String
  message : Option String
  settled_at : Option PyDateTime
  created_at : PyDateTime
  amount : Frac
  currency : String
  category : Option String
  parentCategory : Option String
  tags : List String

/-- `Transaction.__init__` (models.py lines 35-69). -/
def Transaction.init (data : Json) : Option Transaction :=
  match data.find? "id" with
  | some (.str id) =>
    (match data.find? "attributes" with
     | some attributes =>
       (match attributes.find? "status" with
        | some (.str status) =>
          (match (attributes.find? "rawText").bind optStr? with
           | some raw_text =>
             (match attributes.find? "description" with
              | some (.str description) =>
                (match (attributes.find? "message").bind optStr? with
                 | some message =>
                   (match (attributes.find? "settledAt").bind optionalTimestamp with
                    | some settled_at =>
                      (match attributes.find? "createdAt" with
                       | some (.str createdS) =>
                         (match fromisoformat createdS with
                          | some created_at =>
                            (match attributes.find? "amount" with
                             | some amountJ =>
                               (match (amountJ.find? "value").bind pyFloatOfJson with
                                | some amount =>
                                  (match amountJ.find? "currencyCode" with
                                   | some (.str currency) =>
                                     (match data.find? "relationships" with
                                      | some relationships =>
                                        (match (relationships.find? "category").bind
                                            (fun rel => rel.find? "data") with
                                         | some categoryData =>
                                           (match optionalRelId categoryData with
                                            | some category =>
                                              (match (relationships.find? "parentCategory").bind
                                                  (fun rel => rel.find? "data") with
                                               | some parentData =>
                                                 (match optionalRelId parentData with
                                                  | some parentCategory =>
                                                    (match (relationships.find? "tags").bind
                                                        (fun rel => rel.find? "data") with
                                                     | some (.arr tagsList) =>
                                                       (match tagsList.mapM
                                                           (fun tg => (tg.find? "id").bind Json.asStr?) with
                                                        | some tags =>
                                                          some { id := id, status := status,
                                                                 pending := decide (status ≠ TRANSACTION_SETTLED),
                                                                 raw_text := raw_text,
                                                                 description := description,
                                                                 message := message,
                                                                 settled_at := settled_at,
                                                                 created_at := created_at,
                                                                 amount := amount,
                                                                 currency := currency,
                                                                 category := category,
                                                                 parentCategory := parentCategory,
                                                                 tags := tags }
                                                        | none => none)
                                                     | _ => none)
                                                  | none => none)
                                               | none => none)
                                            | none => none)
                                         | none => none)
                                      | none => none)
                                   | _ => none)
                                | none => none)
                             | none => none)
                          | none => none)
                       | _ => none)
                    | none => none)
                 | none => none)
              | _ => none)
           | none => none)
        | _ => none)
     | none => none)
  | _ => none

/-- `Transaction.format_desc` (models.py lines 71-75): the f-string
`"{description}: {message}"` when `message` is truthy (present and
non-empty), else the description alone. -/
def Transaction.format_desc (t : Transaction) : String :=
  match t.message with
  | some m => if m ≠ "" then t.description ++ ": " ++ m else t.description
  | none => t.description

structure Account where
  id : String
  name : String
  type : String
  created_at : PyDateTime
  balance : Frac
  currency : String

/-- `Account.__init__` (models.py lines 94-104). -/
def Account.init (data : Json) : Option Account :=
  match data.find? "id" with
  | some (.str id) =>
    (match data.find? "attributes" with
     | some attributes =>
       (match attributes.find? "displayName" with
        | some (.str name) =>
          (match attributes.find? "accountType" with
           | some (.str type) =>
             (match attributes.find? "createdAt" with
              | some (.str createdS) =>
                (match fromisoformat createdS with
                 | some created_at =>
                   (match attributes.find? "balance" with
                    | some balanceJ =>
                      (match (balanceJ.find? "value").bind pyFloatOfJson with
                       | some balance =>
                         (match balanceJ.find? "currencyCode" with
                          | some (.str currency) =>
                            some { id := id, name := name, type := type,
                                   created_at := created_at, balance := balance,
                                   currency := currency }
                          | _ => none)
                       | none => none)
                    | none => none)
                 | none => none)
              | _ => none)
           | _ => none)
        | _ => none)
     | none => none)
  | _ => none

structure Webhook where
  id : String
  url : String
  description : Option String
  secret_key : Option String
  created_at : PyDateTime

/-- `Webhook.__init__` (models.py lines 153-162): `description` and
`secretKey` are read with `dict.get`, so a missing key yields None rather
than a failure. -/
def Webhook.init (data : Json) : Option Webhook :=
  match data.find? "id" with
  | some (.str id) =>
    (match data.find? "attributes" with
     | some attributes =>
       (match attributes.find? "url" with
        | some (.str url) =>
          (match (attributes.pyGet "description").bind optStr? with
           | some description =>
             (match (attributes.pyGet "secretKey").bind optStr? with
              | some secret_key =>
                (match attributes.find? "createdAt" with
                 | some (.str createdS) =>
                   (match fromisoformat createdS with
                    | some created_at =>
                      some { id := id, url := url, description := description,
                             secret_key := secret_key, created_at := created_at }
                    | none => none)
                 | _ => none)
              | none => none)
           | none => none)
        | _ => none)
     | none => none)
  | _ => none

structure WebhookEvent where
  id : String
  type : String
  created_at : PyDateTime
  webhook_id : String
  transaction_id : Option String

/-- Lines 248-251 of models.py: `transaction_id` stays None when the
`transaction` key is absent from `relationships`; when the key is present,
`relationships["transaction"]["data"]["id"]` is read unconditionally, so a
null `data` raises TypeError. -/
def transactionIdOf (relationships : Json) : Option (Option String) :=
  match relationships.find? "transaction" with
  | none => some none
  | some tr =>
    ((((tr.find? "data").bind (fun d => d.find? "id")).bind Json.asStr?).map some)

/-- `WebhookEvent.__init__` (models.py lines 236-251). -/
def WebhookEvent.init (data : Json) : Option WebhookEvent :=
  match data.find? "id" with
  | some (.str id) =>
    (match data.find? "attributes" with
     | some attributes =>
       (match attributes.find? "eventType" with
        | some (.str type) =>
          (match attributes.find? "createdAt" with
           | some (.str createdS) =>
             (match fromisoformat createdS with
              | some created_at =>
                (match data.find? "relationships" with
                 | some relationships =>
                   (match (((relationships.find? "webhook").bind
                        (fun w => w.find? "data")).bind
                        (fun d => d.find? "id")).bind Json.asStr? with
                    | some webhook_id =>
                      (match transactionIdOf relationships with
                       | some transaction_id =>
                         some { id := id, type := type, created_at := created_at,
                                webhook_id := webhook_id,
                                transaction_id := transaction_id }
                       | none => none)
                    | none => none)
                 | none => none)
              | none => none)
           | _ => none)
        | _ => none)
     | none => none)
  | _ => none

structure WebhookLog where
  id : String
  event : WebhookEvent
  delivery_status : String
  created_at : PyDateTime
  response_code : Option Int
  response_body : Option String

/-- Python's `x or {}` (line 214 of models.py): the value itself when
truthy, else an empty dict. -/
def orEmptyDict (j : Json) : Json :=
  if j.truthy then j else Json.obj []

/-- `WebhookLog.__init__` (models.py lines 201-216): the embedded event is
built from `json.loads(attributes["request"]["body"])["data"]`; the
`response` object is replaced by `{}` when falsy, and its fields are read
with `dict.get`. -/
def WebhookLog.init (data : Json) : Option WebhookLog :=
  match data.find? "id" with
  | some (.str id) =>
    (match data.find? "attributes" with
     | some attributes =>
       (match (attributes.find? "request").bind (fun r => r.find? "body") with
        | some (.str bodyS) =>
          (match (jsonLoads bodyS).bind (fun b => b.find? "data") with
           | some eventData =>
             (match WebhookEvent.init eventData with
              | some event =>
                (match attributes.find? "deliveryStatus" with
                 | some (.str delivery_status) =>
                   (match attributes.find? "createdAt" with
                    | some (.str createdS) =>
                      (match fromisoformat createdS with
                       | some created_at =>
                         (match attributes.find? "response" with
                          | some responseJ =>
                            (match ((orEmptyDict responseJ).pyGet "statusCode").bind optInt? with
                             | some response_code =>
                               (match ((orEmptyDict responseJ).pyGet "body").bind optStr? with
                                | some response_body =>
                                  some { id := id, event := event,
                                         delivery_status := delivery_status,
                                         created_at := created_at,
                                         response_code := response_code,
                                         response_body := response_body }
                                | none => none)
                             | none => none)
                          | none => none)
                       | none => none)
                    | _ => none)
                 | _ => none)
              | none => none)
           | none => none)
        | _ => none)
     | none => none)
  | _ => none

/-! ### PaginatedList (spec §4.2)

Modelled from the spec: the `PaginatedList` class lives in
`upbankapi/list.py`, which is not among the sources; only §4.2 of the spec
describes it.  The cursor-linked sequence of pages the fetch function would
return is modelled as a list of pages; `paginate` returns the sequence of
yielded items together with the number of page fetches performed.  Per
§4.2: an advance first terminates if the yield count has reached `limit`
(`none` meaning unlimited), otherwise yields from the buffer, otherwise
fetches the next page while one exists. -/

def limitReached : Option Nat → Nat → Bool
  | none, _ => false
  | some n, c => decide (n ≤ c)

/-- Items from a freshly fetched buffer that the cap still allows. -/
def takeAllowed : Option Nat → Nat → List α → List α
  | none, _, buf => buf
  | some n, c, buf => buf.take (n - c)

def runFrom (limit : Option Nat) (count : Nat) :
    List (List α) → List α × Nat
  | [] => ([], 0)
  | p :: ps =>
    if limitReached limit count then ([], 0)
    else
      let y := takeAllowed limit count p
      let rest := runFrom limit (count + y.length) ps
      (y ++ rest.1, rest.2 + 1)

/-- Modelled from the spec: traversing a whole `PaginatedList` over the
given pages with the given item cap — the yielded items and the number of
page fetches. -/
def paginate (limit : Option Nat) (pages : List (List α)) : List α × Nat :=
  runFrom limit 0 pages

/-! ### Raw-object accessors

Compositions of lookups on the raw JSON object, used to state how each
entity field relates to its source.  All are `Option`-valued: `none` when
some step of the path is missing or ill-typed. -/

/-- `raw["attributes"][k]`. -/
def rawAttr (d : Json) (k : String) : Option Json :=
  (d.find? "attributes").bind (fun a => a.find? k)

/-- `raw["attributes"].get(k)` (the `dict.get` form). -/
def rawAttrGet (d : Json) (k : String) : Option Json :=
  (d.find? "attributes").bind (fun a => a.pyGet k)

/-- `raw["relationships"][k]`. -/
def rawRel (d : Json) (k : String) : Option Json :=
  (d.find? "relationships").bind (fun r => r.find? k)

/-- `raw["relationships"][k]["data"]`. -/
def rawRelData (d : Json) (k : String) : Option Json :=
  (rawRel d k).bind (fun rel => rel.find? "data")

/-- `raw["attributes"]["amount"][k]`. -/
def rawAmountField (d : Json) (k : String) : Option Json :=
  (rawAttr d "amount").bind (fun a => a.find? k)

/-- `raw["attributes"]["balance"][k]`. -/
def rawBalanceField (d : Json) (k : String) : Option Json :=
  (rawAttr d "balance").bind (fun a => a.find? k)

/-- `datetime.fromisoformat(raw["attributes"][k])`, requiring a string. -/
def rawTimestamp (d : Json) (k : String) : Option PyDateTime :=
  ((rawAttr d k).bind Json.asStr?).bind fromisoformat

/-- `json.loads(raw["attributes"]["request"]["body"])["data"]`, the raw
object of the event a webhook log embeds. -/
def rawEventData (d : Json) : Option Json :=
  (((rawAttr d "request").bind (fun r => r.find? "body")).bind Json.asStr?).bind
    (fun s => (jsonLoads s).bind (fun b => b.find? "data"))

/-! ### Concrete raw objects and their parses, used in examples and
counterexamples -/

/-- A held transaction with a null category and empty tags. -/
def goodTxRaw : Json := Json.obj [
  ("id", .str "t1"),
  ("attributes", .obj [
     ("status", .str "HELD"),
     ("rawText", .null),
     ("description", .str "Coffee"),
     ("message", .null),
     ("settledAt", .null),
     ("createdAt", .str "2023-01-01T09:59:00+10:00"),
     ("amount", .obj [("value", .str "-4.50"), ("currencyCode", .str "AUD")])]),
  ("relationships", .obj [
     ("category", .obj [("data", .null)]),
     ("parentCategory", .obj [("data", .null)]),
     ("tags", .obj [("data", .arr [])])])]

def goodTx : Transaction :=
  { id := "t1", status := "HELD", pending := true, raw_text := none,
    description := "Coffee", message := none, settled_at := none,
    created_at := ⟨2023, 1, 1, 9, 59, 0, 0, some 36000000000⟩,
    amount := ⟨-9, 2⟩, currency := "AUD", category := none,
    parentCategory := none, tags := [] }

/-- The raw transaction of the worked example in the spec (§8). -/
def c3raw : Json := Json.obj [
  ("id", .str "t1"),
  ("attributes", .obj [
     ("status", .str "SETTLED"),
     ("rawText", .null),
     ("description", .str "Coffee"),
     ("message", .null),
     ("settledAt", .str "2023-01-01T10:00:00+10:00"),
     ("createdAt", .str "2023-01-01T09:59:00+10:00"),
     ("amount", .obj [("value", .str "-4.50"), ("currencyCode", .str "AUD")])]),
  ("relationships", .obj [
     ("category", .obj [("data", .null)]),
     ("parentCategory", .obj [("data", .null)]),
     ("tags", .obj [("data", .arr [])])])]

def c3tx : Transaction :=
  { id := "t1", status := "SETTLED", pending := false, raw_text := none,
    description := "Coffee", message := none,
    settled_at := some ⟨2023, 1, 1, 10, 0, 0, 0, some 36000000000⟩,
    created_at := ⟨2023, 1, 1, 9, 59, 0, 0, some 36000000000⟩,
    amount := ⟨-9, 2⟩, currency := "AUD", category := none,
    parentCategory := none, tags := [] }

/-- Like `c3raw` but with the amount value `"0.1"`, whose binary64 value is
`3602879701896397 / 2 ^ 55`, not the exact decimal `1/10`. -/
def c4raw : Json := Json.obj [
  ("id", .str "t2"),
  ("attributes", .obj [
     ("status", .str "SETTLED"),
     ("rawText", .null),
     ("description", .str "Coffee"),
     ("message", .null),
     ("settledAt", .null),
     ("createdAt", .str "2023-01-01T09:59:00+10:00"),
     ("amount", .obj [("value", .str "0.1"), ("currencyCode", .str "AUD")])]),
  ("relationships", .obj [
     ("category", .obj [("data", .null)]),
     ("parentCategory", .obj [("data", .null)]),
     ("tags", .obj [("data", .arr [])])])]

def c4tx : Transaction :=
  { id := "t2", status := "SETTLED", pending := false, raw_text := none,
    description := "Coffee", message := none, settled_at := none,
    created_at := ⟨2023, 1, 1, 9, 59, 0, 0, some 36000000000⟩,
    amount := ⟨3602879701896397, 36028797018963968⟩, currency := "AUD",
    category := none, parentCategory := none, tags := [] }

/-- An account whose balance value is the decimal string `"0.1"`. -/
def c5raw : Json := Json.obj [
  ("id", .str "a1"),
  ("attributes", .obj [
     ("displayName", .str "Spending"),
     ("accountType", .str "TRANSACTIONAL"),
     ("createdAt", .str "2020-07-01T00:00:00+10:00"),
     ("balance", .obj [("value", .str "0.1"), ("currencyCode", .str "AUD")])])]

def c5acct : Account :=
  { id := "a1", name := "Spending", type := "TRANSACTIONAL",
    created_at := ⟨2020, 7, 1, 0, 0, 0, 0, some 36000000000⟩,
    balance := ⟨3602879701896397, 36028797018963968⟩, currency := "AUD" }

/-- A webhook event whose `transaction` relationship is present with
`data: null`. -/
def cex2raw : Json := Json.obj [
  ("id", .str "evt2"),
  ("attributes", .obj [
     ("eventType", .str "TRANSACTION_CREATED"),
     ("createdAt", .str "2023-01-01T09:59:00+10:00")]),
  ("relationships", .obj [
     ("webhook", .obj [("data", .obj [("id", .str "wh1")])]),
     ("transaction", .obj [("data", .null)])])]

/-- A ping event: no `transaction` key at all in `relationships`. -/
def pingEvRaw : Json := Json.obj [
  ("id", .str "evt1"),
  ("attributes", .obj [
     ("eventType", .str "PING"),
     ("createdAt", .str "2023-01-01T09:59:00+10:00")]),
  ("relationships", .obj [
     ("webhook", .obj [("data", .obj [("id", .str "wh1")])])])]

def pingEv : WebhookEvent :=
  { id := "evt1", type := "PING",
    created_at := ⟨2023, 1, 1, 9, 59, 0, 0, some 36000000000⟩,
    webhook_id := "wh1", transaction_id := none }

/-- A webhook whose raw attributes carry `secretKey: ""`. -/
def c8raw : Json := Json.obj [
  ("id", .str "wh1"),
  ("attributes", .obj [
     ("url", .str "https://example.com/hook"),
     ("description", .null),
     ("secretKey", .str ""),
     ("createdAt", .str "2023-01-01T09:59:00+10:00")])]

def c8wh : Webhook :=
  { id := "wh1", url := "https://example.com/hook", description := none,
    secret_key := some "",
    created_at := ⟨2023, 1, 1, 9, 59, 0, 0, some 36000000000⟩ }

/-- A webhook with no `secretKey` key in its attributes. -/
def goodWhRaw : Json := Json.obj [
  ("id", .str "wh2"),
  ("attributes", .obj [
     ("url", .str "https://example.com/hook2"),
     ("createdAt", .str "2023-01-01T09:59:00+10:00")])]

def goodWh : Webhook :=
  { id := "wh2", url := "https://example.com/hook2", description := none,
    secret_key := none,
    created_at := ⟨2023, 1, 1, 9, 59, 0, 0, some 36000000000⟩ }

/-- The JSON-encoded delivery-request body embedding the ping event. -/
def logBody : String :=
  "\x7b\"data\": \x7b\"id\": \"evt1\", \"attributes\": \x7b\"eventType\": \"PING\", \"createdAt\": \"2023-01-01T09:59:00+10:00\"\x7d, \"relationships\": \x7b\"webhook\": \x7b\"data\": \x7b\"id\": \"wh1\"\x7d\x7d\x7d\x7d\x7d"

/-- A webhook log with no recorded response (`response: null`). -/
def c7raw : Json := Json.obj [
  ("id", .str "log1"),
  ("attributes", .obj [
     ("request", .obj [("body", .str logBody)]),
     ("deliveryStatus", .str "DELIVERED"),
     ("createdAt", .str "2023-01-01T09:59:30+10:00"),
     ("response", .null)])]

def c7log : WebhookLog :=
  { id := "log1", event := pingEv, delivery_status := "DELIVERED",
    created_at := ⟨2023, 1, 1, 9, 59, 30, 0, some 36000000000⟩,
    response_code := none, response_body := none }

/-- The same log entry with a recorded response. -/
def c7raw2 : Json := Json.obj [
  ("id", .str "log2"),
  ("attributes", .obj [
     ("request", .obj [("body", .str logBody)]),
     ("deliveryStatus", .str "DELIVERED"),
     ("createdAt", .str "2023-01-01T09:59:30+10:00"),
     ("response", .obj [("statusCode", .int 200), ("body", .str "ok")])])]

def c7log2 : WebhookLog :=
  { id := "log2", event := pingEv, delivery_status := "DELIVERED",
    created_at := ⟨2023, 1, 1, 9, 59, 30, 0, some 36000000000⟩,
    response_code := some 200, response_body := some "ok" }

/-- A raw object with an id but no attributes. -/
def c6noattrs : Json := Json.obj [("id", .str "t9")]

/-- Attributes present but the required `status` key missing. -/
def c6nostatus : Json := Json.obj [
  ("id", .str "t9"), ("attributes", .obj [("rawText", .null)])]

/-- A `createdAt` string `datetime.fromisoformat` cannot parse. -/
def c6badts : Json := Json.obj [
  ("id", .str "t9"),
  ("attributes", .obj [("createdAt", .str "not-a-date")])]

/-- A transaction with a non-empty message, for `format_desc`. -/
def msgTx : Transaction :=
  { goodTx with message := some "with Alice" }

/-- A settled transaction whose category and parent category are both
present (non-null relationship data). -/
def catTxRaw : Json := Json.obj [
  ("id", .str "t3"),
  ("attributes", .obj [
     ("status", .str "SETTLED"),
     ("rawText", .str "COFFEE X"),
     ("description", .str "Coffee"),
     ("message", .str "thanks"),
     ("settledAt", .null),
     ("createdAt", .str "2023-01-01T09:59:00+10:00"),
     ("amount", .obj [("value", .str "-4.50"), ("currencyCode", .str "AUD")])]),
  ("relationships", .obj [
     ("category", .obj [("data", .obj [("id", .str "groceries")])]),
     ("parentCategory", .obj [("data", .obj [("id", .str "good-life")])]),
     ("tags", .obj [("data", .arr [.obj [("id", .str "fun")]])])])]

def catTx : Transaction :=
  { id := "t3", status := "SETTLED", pending := false,
    raw_text := some "COFFEE X", description := "Coffee",
    message := some "thanks", settled_at := none,
    created_at := ⟨2023, 1, 1, 9, 59, 0, 0, some 36000000000⟩,
    amount := ⟨-9, 2⟩, currency := "AUD", category := some "groceries",
    parentCategory := some "good-life", tags := ["fun"] }

/-! ### Inversion lemmas

Each lemma recovers, from a successful construction, the relation between
every entity field and the raw object. -/

theorem transaction_init_inv (d : Json) (t : Transaction)
    (h : Transaction.init d = some t) :
    d.find? "id" = some (.str t.id)
    ∧ rawAttr d "status" = some (.str t.status)
    ∧ t.pending = decide (t.status ≠ TRANSACTION_SETTLED)
    ∧ (rawAttr d "rawText").bind optStr? = some t.raw_text
    ∧ rawAttr d "description" = some (.str t.description)
    ∧ (rawAttr d "message").bind optStr? = some t.message
    ∧ (rawAttr d "settledAt").bind optionalTimestamp = some t.settled_at
    ∧ rawTimestamp d "createdAt" = some t.created_at
    ∧ (rawAmountField d "value").bind pyFloatOfJson = some t.amount
    ∧ rawAmountField d "currencyCode" = some (.str t.currency)
    ∧ (rawRelData d "category").bind optionalRelId = some t.category
    ∧ (rawRelData d "parentCategory").bind optionalRelId = some t.parentCategory
    ∧ ((rawRelData d "tags").bind Json.asArr?).bind
        (fun l => l.mapM (fun tg => (tg.find? "id").bind Json.asStr?)) = some t.tags := by
  unfold Transaction.init at h
  repeat (any_goals (first | exact Option.noConfusion h | split at h))
  injection h with h
  subst h
  simp_all [rawAttr, rawRel, rawRelData, rawAmountField, rawTimestamp,
    Json.asStr?, Json.asArr?]

theorem account_init_inv (d : Json) (a : Account)
    (h : Account.init d = some a) :
    d.find? "id" = some (.str a.id)
    ∧ rawAttr d "displayName" = some (.str a.name)
    ∧ rawAttr d "accountType" = some (.str a.type)
    ∧ rawTimestamp d "createdAt" = some a.created_at
    ∧ (rawBalanceField d "value").bind pyFloatOfJson = some a.balance
    ∧ rawBalanceField d "currencyCode" = some (.str a.currency) := by
  unfold Account.init at h
  repeat (any_goals (first | exact Option.noConfusion h | split at h))
  injection h with h
  subst h
  simp_all [rawAttr, rawBalanceField, rawTimestamp, Json.asStr?]

theorem webhook_init_inv (d : Json) (w : Webhook)
    (h : Webhook.init d = some w) :
    d.find? "id" = some (.str w.id)
    ∧ rawAttr d "url" = some (.str w.url)
    ∧ (rawAttrGet d "description").bind optStr? = some w.description
    ∧ (rawAttrGet d "secretKey").bind optStr? = some w.secret_key
    ∧ rawTimestamp d "createdAt" = some w.created_at := by
  unfold Webhook.init at h
  repeat (any_goals (first | exact Option.noConfusion h | split at h))
  injection h with h
  subst h
  simp_all [rawAttr, rawAttrGet, rawTimestamp, Json.asStr?]

theorem webhookEvent_init_inv (d : Json) (e : WebhookEvent)
    (h : WebhookEvent.init d = some e) :
    d.find? "id" = some (.str e.id)
    ∧ rawAttr d "eventType" = some (.str e.type)
    ∧ rawTimestamp d "createdAt" = some e.created_at
    ∧ ((rawRelData d "webhook").bind (fun j => j.find? "id")).bind Json.asStr?
        = some e.webhook_id
    ∧ (d.find? "relationships").bind transactionIdOf = some e.transaction_id := by
  unfold WebhookEvent.init at h
  repeat (any_goals (first | exact Option.noConfusion h | split at h))
  injection h with h
  subst h
  simp_all [rawAttr, rawRel, rawRelData, rawTimestamp, Json.asStr?]

theorem webhookLog_init_inv (d : Json) (l : WebhookLog)
    (h : WebhookLog.init d = some l) :
    d.find? "id" = some (.str l.id)
    ∧ (rawEventData d).bind WebhookEvent.init = some l.event
    ∧ rawAttr d "deliveryStatus" = some (.str l.delivery_status)
    ∧ rawTimestamp d "createdAt" = some l.created_at
    ∧ (rawAttr d "response").bind
        (fun r => ((orEmptyDict r).pyGet "statusCode").bind optInt?)
        = some l.response_code
    ∧ (rawAttr d "response").bind
        (fun r => ((orEmptyDict r).pyGet "body").bind optStr?)
        = some l.response_body := by
  unfold WebhookLog.init at h
  repeat (any_goals (first | exact Option.noConfusion h | split at h))
  injection h with h
  subst h
  simp_all [rawAttr, rawEventData, rawTimestamp, Json.asStr?]

/-! ### Claim theorems -/

/-- C1: for every raw object the transaction constructor accepts, the
resulting `pending` field is true exactly when the resulting `status` is
not `"SETTLED"`; it is derived from `status` alone, with no other way to
set it. -/
theorem c1_pending_negation_of_settled (d : Json) (t : Transaction)
    (h : Transaction.init d = some t) :
    t.pending = true ↔ t.status ≠ "SETTLED" := by
  have hp := (transaction_init_inv d t h).2.2.1
  rw [hp]
  simp [TRANSACTION_SETTLED]

/-- Witness for C1 at a concrete held transaction. -/
theorem c1_witness : goodTx.pending = true ↔ goodTx.status ≠ "SETTLED" :=
  c1_pending_negation_of_settled goodTxRaw goodTx rfl

/-- C3: the spec's worked example — the raw settled transaction `c3raw`
maps to id `"t1"`, pending false, amount exactly `-4.50`, currency `"AUD"`,
category absent and an empty (non-null) tag list. -/
theorem c3_example_transaction :
    Transaction.init c3raw = some c3tx
    ∧ c3tx.id = "t1"
    ∧ c3tx.pending = false
    ∧ Frac.toRat c3tx.amount = -(45 / 10 : ℚ)
    ∧ c3tx.currency = "AUD"
    ∧ c3tx.category = none
    ∧ c3tx.tags = [] :=
  ⟨rfl, rfl, rfl, by norm_num [Frac.toRat, c3tx], rfl, rfl, rfl⟩

/-- C9: a PaginatedList with `limit = 0` yields the empty sequence and
performs zero page fetches, whatever pages the endpoint could serve. -/
theorem c9_limit_zero {α : Type} (pages : List (List α)) :
    paginate (some 0) pages = ([], 0) := by
  cases pages <;> simp [paginate, runFrom, limitReached]

/-- Witness for C9 at a concrete two-page collection. -/
theorem c9_witness : paginate (some 0) [[1, 2], [3]] = ([], 0) :=
  c9_limit_zero [[1, 2], [3]]

/-- C10: `format_desc` returns `"<description>: <message>"` when the
message is present and non-empty, and the description alone when the
message is absent or empty; it is total and reads only the `description`
and `message` fields. -/
theorem c10_format_desc (t : Transaction) :
    (∀ m, t.message = some m → m ≠ "" →
        t.format_desc = t.description ++ ": " ++ m)
    ∧ ((t.message = none ∨ t.message = some "") →
        t.format_desc = t.description)
    ∧ (∀ u : Transaction, t.description = u.description → t.message = u.message →
        t.format_desc = u.format_desc) := by
  refine ⟨?_, ?_, ?_⟩
  · intro m hm hne
    simp [Transaction.format_desc, hm, hne]
  · rintro (hm | hm) <;> simp [Transaction.format_desc, hm]
  · intro u hd hm
    simp [Transaction.format_desc, hd, hm]

/-- Witness for C10 at a transaction with a message and one without. -/
theorem c10_witness :
    msgTx.format_desc = msgTx.description ++ ": " ++ "with Alice"
    ∧ goodTx.format_desc = goodTx.description :=
  ⟨(c10_format_desc msgTx).1 "with Alice" rfl (by decide),
   (c10_format_desc goodTx).2.1 (Or.inl rfl)⟩

/-- C7: when a webhook log's `attributes.response` is null, both
`response_code` and `response_body` are absent together; when the response
is present (truthy), `response_code` is its `statusCode` value and
`response_body` its `body` value (each None when missing or null). -/
theorem c7_response_fields (d : Json) (l : WebhookLog)
    (h : WebhookLog.init d = some l) :
    (rawAttr d "response" = some Json.null →
        l.response_code = none ∧ l.response_body = none)
    ∧ (∀ r, rawAttr d "response" = some r → r.truthy = true →
        (r.pyGet "statusCode").bind optInt? = some l.response_code
        ∧ (r.pyGet "body").bind optStr? = some l.response_body) := by
  obtain ⟨-, -, -, -, hc, hb⟩ := webhookLog_init_inv d l h
  constructor
  · intro hr
    rw [hr] at hc hb
    simp [orEmptyDict, Json.truthy, Json.pyGet, findField, optInt?, optStr?] at hc hb
    exact ⟨hc.symm, hb.symm⟩
  · intro r hr htr
    rw [hr] at hc hb
    simp [orEmptyDict, htr] at hc hb
    exact ⟨hc, hb⟩

set_option maxRecDepth 8000 in
/-- Witness for C7: a log with a null response has both fields absent, and
one with a recorded response exposes its status code. -/
theorem c7_witness :
    (c7log.response_code = none ∧ c7log.response_body = none)
    ∧ ((Json.obj [("statusCode", Json.int 200), ("body", Json.str "ok")]).pyGet
        "statusCode").bind optInt? = some c7log2.response_code :=
  ⟨(c7_response_fields c7raw c7log rfl).1 rfl,
   ((c7_response_fields c7raw2 c7log2 rfl).2
      (Json.obj [("statusCode", Json.int 200), ("body", Json.str "ok")]) rfl rfl).1⟩

/-- C8 counterexample: the webhook constructor performs no emptiness check,
so a raw `secretKey: ""` yields a constructed webhook whose `secret_key` is
the empty string — the claimed invariant fails. -/
theorem c8_counterexample :
    Webhook.init c8raw = some c8wh ∧ c8wh.secret_key = some "" :=
  ⟨rfl, rfl⟩

/-- C8 amended: `secret_key` is exactly the supplied `attributes.secretKey`
string — including a possible empty string, with no non-emptiness check —
and is absent (None) when the key is missing or null. -/
theorem c8_secret_key_amended (d : Json) (w : Webhook)
    (h : Webhook.init d = some w) :
    (rawAttrGet d "secretKey" = some Json.null → w.secret_key = none)
    ∧ (∀ s, rawAttrGet d "secretKey" = some (.str s) → w.secret_key = some s) := by
  obtain ⟨-, -, -, hs, -⟩ := webhook_init_inv d w h
  constructor
  · intro hr
    rw [hr] at hs
    simp [optStr?] at hs
    exact hs.symm
  · intro s hr
    rw [hr] at hs
    simp [optStr?] at hs
    exact hs.symm

/-- Witness for C8 amended: a webhook without the key gets None, one with
an empty-string key gets `some ""`. -/
theorem c8_amended_witness :
    goodWh.secret_key = none ∧ c8wh.secret_key = some "" :=
  ⟨(c8_secret_key_amended goodWhRaw goodWh rfl).1 rfl,
   (c8_secret_key_amended c8raw c8wh rfl).2 "" rfl⟩

/-- C4 counterexample: the transaction whose raw amount value is the
decimal string `"0.1"` is accepted, but the stored amount is the binary64
value `3602879701896397/2^55`, not the exact decimal `1/10` — the value is
parsed with `float`, not as an exact decimal. -/
theorem c4_counterexample :
    Transaction.init c4raw = some c4tx
    ∧ rawAmountField c4raw "value" = some (.str "0.1")
    ∧ Frac.toRat c4tx.amount ≠ (1 / 10 : ℚ) :=
  ⟨rfl, rfl, by norm_num [Frac.toRat, c4tx]⟩

/-- C4 amended: monetary objects are parsed into (value, currency) where
the value is Python's `float` of the raw `value` (the nearest binary64,
which equals the exact decimal only when that decimal is representable in
binary) and the currency equals `currencyCode` unchanged. -/
theorem c4_money_amended :
    (∀ d t, Transaction.init d = some t →
        (rawAmountField d "value").bind pyFloatOfJson = some t.amount
        ∧ rawAmountField d "currencyCode" = some (.str t.currency))
    ∧ (∀ d a, Account.init d = some a →
        (rawBalanceField d "value").bind pyFloatOfJson = some a.balance
        ∧ rawBalanceField d "currencyCode" = some (.str a.currency)) := by
  constructor
  · intro d t h
    obtain ⟨-, -, -, -, -, -, -, -, hv, hcur, -, -, -⟩ :=
      transaction_init_inv d t h
    exact ⟨hv, hcur⟩
  · intro d a h
    obtain ⟨-, -, -, -, hv, hcur⟩ := account_init_inv d a h
    exact ⟨hv, hcur⟩

/-- Witness for C4 amended at a concrete transaction and account. -/
theorem c4_amended_witness :
    ((rawAmountField c3raw "value").bind pyFloatOfJson = some c3tx.amount
      ∧ rawAmountField c3raw "currencyCode" = some (.str c3tx.currency))
    ∧ ((rawBalanceField c5raw "value").bind pyFloatOfJson = some c5acct.balance
      ∧ rawBalanceField c5raw "currencyCode" = some (.str c5acct.currency)) :=
  ⟨c4_money_amended.1 c3raw c3tx rfl, c4_money_amended.2 c5raw c5acct rfl⟩

/-- C2 counterexample: a webhook event whose `transaction` relationship is
present with `data: null` does not construct with an absent reference — the
constructor raises (`relationships["transaction"]["data"]["id"]` on null
data), so construction fails outright. -/
theorem c2_counterexample :
    rawRelData cex2raw "transaction" = some Json.null
    ∧ WebhookEvent.init cex2raw = none :=
  ⟨rfl, rfl⟩

/-- C2 amended: on Transaction, a null (or otherwise falsy) `data` in the
`category`/`parentCategory` relationship yields an absent field, never an
empty string, and a truthy `data` yields exactly its `id`; on WebhookEvent,
`transaction_id` is absent exactly when the `transaction` key is missing
from `relationships` — a present relationship must have non-null `data`
(whose `id` is taken), a null `data` being a construction failure. -/
theorem c2_optional_relationships_amended :
    (∀ d t, Transaction.init d = some t →
        (∀ j, rawRelData d "category" = some j → j.truthy = false →
            t.category = none)
        ∧ (∀ j, rawRelData d "parentCategory" = some j → j.truthy = false →
            t.parentCategory = none)
        ∧ (∀ j, rawRelData d "category" = some j → j.truthy = true →
            ∃ s, (j.find? "id").bind Json.asStr? = some s ∧ t.category = some s)
        ∧ (∀ j, rawRelData d "parentCategory" = some j → j.truthy = true →
            ∃ s, (j.find? "id").bind Json.asStr? = some s ∧ t.parentCategory = some s))
    ∧ (∀ d e, WebhookEvent.init d = some e →
        (e.transaction_id = none ↔ rawRel d "transaction" = none)
        ∧ rawRelData d "transaction" ≠ some Json.null
        ∧ (∀ tid, e.transaction_id = some tid →
            (rawRelData d "transaction").bind
              (fun j => (j.find? "id").bind Json.asStr?) = some tid)) := by
  constructor
  · intro d t h
    obtain ⟨-, -, -, -, -, -, -, -, -, -, hcat, hpar, -⟩ :=
      transaction_init_inv d t h
    refine ⟨?_, ?_, ?_, ?_⟩
    · intro j hr htr
      rw [hr] at hcat
      simp [optionalRelId, htr] at hcat
      exact hcat.symm
    · intro j hr htr
      rw [hr] at hpar
      simp [optionalRelId, htr] at hpar
      exact hpar.symm
    · intro j hr htr
      rw [hr] at hcat
      simp only [Option.some_bind, optionalRelId, htr, if_true] at hcat
      rw [Option.map_eq_some'] at hcat
      obtain ⟨s, hs, hts⟩ := hcat
      exact ⟨s, hs, hts.symm⟩
    · intro j hr htr
      rw [hr] at hpar
      simp only [Option.some_bind, optionalRelId, htr, if_true] at hpar
      rw [Option.map_eq_some'] at hpar
      obtain ⟨s, hs, hts⟩ := hpar
      exact ⟨s, hs, hts.symm⟩
  · intro d e h
    obtain ⟨-, -, -, -, htr⟩ := webhookEvent_init_inv d e h
    obtain ⟨rels, hrels, htid⟩ := Option.bind_eq_some.mp htr
    unfold transactionIdOf at htid
    cases hfind : rels.find? "transaction" with
    | none =>
      rw [hfind] at htid
      injection htid with htid
      refine ⟨⟨fun _ => ?_, fun _ => htid.symm⟩, ?_, ?_⟩
      · simp [rawRel, hrels, hfind]
      · simp [rawRelData, rawRel, hrels, hfind]
      · intro tid htid2
        rw [← htid] at htid2
        exact Option.noConfusion htid2
    | some tr =>
      rw [hfind] at htid
      rw [Option.map_eq_some'] at htid
      obtain ⟨tid0, hchain, hetid⟩ := htid
      obtain ⟨ij, hij, hstr⟩ := Option.bind_eq_some.mp hchain
      obtain ⟨dj, hdjEq, hdjid⟩ := Option.bind_eq_some.mp hij
      refine ⟨⟨fun h' => ?_, fun h' => ?_⟩, ?_, ?_⟩
      · rw [← hetid] at h'
        exact Option.noConfusion h'
      · rw [rawRel, hrels] at h'
        simp [hfind] at h'
      · intro hnull
        rw [rawRelData, rawRel, hrels] at hnull
        simp [hfind, hdjEq] at hnull
        subst hnull
        simp [Json.find?] at hdjid
      · intro tid htid2
        have htid0 : tid = tid0 := by
          rw [← hetid] at htid2
          exact (Option.some.inj htid2).symm
        subst htid0
        simp [rawRelData, rawRel, hrels, hfind, hdjEq, hdjid, hstr]

/-- Witness for C2 amended: the transaction with null category and parent
category data has both fields absent, the one with populated relationships
carries both ids, and the ping event without a `transaction` key has an
absent transaction reference. -/
theorem c2_amended_witness :
    goodTx.category = none
    ∧ goodTx.parentCategory = none
    ∧ (∃ s, ((Json.obj [("id", Json.str "groceries")]).find? "id").bind
        Json.asStr? = some s ∧ catTx.category = some s)
    ∧ (∃ s, ((Json.obj [("id", Json.str "good-life")]).find? "id").bind
        Json.asStr? = some s ∧ catTx.parentCategory = some s)
    ∧ pingEv.transaction_id = none :=
  ⟨(c2_optional_relationships_amended.1 goodTxRaw goodTx rfl).1 Json.null rfl rfl,
   (c2_optional_relationships_amended.1 goodTxRaw goodTx rfl).2.1 Json.null rfl rfl,
   (c2_optional_relationships_amended.1 catTxRaw catTx rfl).2.2.1
     (Json.obj [("id", Json.str "groceries")]) rfl rfl,
   (c2_optional_relationships_amended.1 catTxRaw catTx rfl).2.2.2
     (Json.obj [("id", Json.str "good-life")]) rfl rfl,
   ((c2_optional_relationships_amended.2 pingEvRaw pingEv rfl).1).mpr rfl⟩

/-- C5 counterexample: the account whose balance value is the decimal
string `"0.1"` is accepted, but its stored balance is the binary64 value,
not the source decimal — the numeric attribute does not round-trip
exactly. -/
theorem c5_counterexample :
    Account.init c5raw = some c5acct
    ∧ rawBalanceField c5raw "value" = some (.str "0.1")
    ∧ Frac.toRat c5acct.balance ≠ (1 / 10 : ℚ) :=
  ⟨rfl, rfl, by norm_num [Frac.toRat, c5acct]⟩

/-- C5 amended: for every raw object each constructor accepts, the entity's
id equals the raw top-level id, string attributes are unchanged, timestamps
are `fromisoformat` of the source strings, optional attributes mirror the
raw null/value alternative, and numeric values equal Python's `float` of
the source decimal (its nearest binary64, equal to the source decimal
exactly only when binary-representable). -/
theorem c5_roundtrip_amended :
    (∀ d t, Transaction.init d = some t →
        d.find? "id" = some (.str t.id)
        ∧ rawAttr d "status" = some (.str t.status)
        ∧ t.pending = decide (t.status ≠ TRANSACTION_SETTLED)
        ∧ (rawAttr d "rawText").bind optStr? = some t.raw_text
        ∧ rawAttr d "description" = some (.str t.description)
        ∧ (rawAttr d "message").bind optStr? = some t.message
        ∧ (rawAttr d "settledAt").bind optionalTimestamp = some t.settled_at
        ∧ rawTimestamp d "createdAt" = some t.created_at
        ∧ (rawAmountField d "value").bind pyFloatOfJson = some t.amount
        ∧ rawAmountField d "currencyCode" = some (.str t.currency)
        ∧ (rawRelData d "category").bind optionalRelId = some t.category
        ∧ (rawRelData d "parentCategory").bind optionalRelId = some t.parentCategory
        ∧ ((rawRelData d "tags").bind Json.asArr?).bind
            (fun l => l.mapM (fun tg => (tg.find? "id").bind Json.asStr?)) = some t.tags)
    ∧ (∀ d a, Account.init d = some a →
        d.find? "id" = some (.str a.id)
        ∧ rawAttr d "displayName" = some (.str a.name)
        ∧ rawAttr d "accountType" = some (.str a.type)
        ∧ rawTimestamp d "createdAt" = some a.created_at
        ∧ (rawBalanceField d "value").bind pyFloatOfJson = some a.balance
        ∧ rawBalanceField d "currencyCode" = some (.str a.currency))
    ∧ (∀ d w, Webhook.init d = some w →
        d.find? "id" = some (.str w.id)
        ∧ rawAttr d "url" = some (.str w.url)
        ∧ (rawAttrGet d "description").bind optStr? = some w.description
        ∧ (rawAttrGet d "secretKey").bind optStr? = some w.secret_key
        ∧ rawTimestamp d "createdAt" = some w.created_at)
    ∧ (∀ d e, WebhookEvent.init d = some e →
        d.find? "id" = some (.str e.id)
        ∧ rawAttr d "eventType" = some (.str e.type)
        ∧ rawTimestamp d "createdAt" = some e.created_at
        ∧ ((rawRelData d "webhook").bind (fun j => j.find? "id")).bind Json.asStr?
            = some e.webhook_id
        ∧ (d.find? "relationships").bind transactionIdOf = some e.transaction_id)
    ∧ (∀ d l, WebhookLog.init d = some l →
        d.find? "id" = some (.str l.id)
        ∧ (rawEventData d).bind WebhookEvent.init = some l.event
        ∧ rawAttr d "deliveryStatus" = some (.str l.delivery_status)
        ∧ rawTimestamp d "createdAt" = some l.created_at
        ∧ (rawAttr d "response").bind
            (fun r => ((orEmptyDict r).pyGet "statusCode").bind optInt?)
            = some l.response_code
        ∧ (rawAttr d "response").bind
            (fun r => ((orEmptyDict r).pyGet "body").bind optStr?)
            = some l.response_body) :=
  ⟨transaction_init_inv, account_init_inv, webhook_init_inv,
   webhookEvent_init_inv, webhookLog_init_inv⟩

set_option maxRecDepth 8000 in
/-- Witness for C5 amended: the id round-trip instantiated on a concrete
object of each of the five kinds. -/
theorem c5_amended_witness :
    c3raw.find? "id" = some (.str c3tx.id)
    ∧ c5raw.find? "id" = some (.str c5acct.id)
    ∧ goodWhRaw.find? "id" = some (.str goodWh.id)
    ∧ pingEvRaw.find? "id" = some (.str pingEv.id)
    ∧ c7raw.find? "id" = some (.str c7log.id) :=
  ⟨(c5_roundtrip_amended.1 c3raw c3tx rfl).1,
   (c5_roundtrip_amended.2.1 c5raw c5acct rfl).1,
   (c5_roundtrip_amended.2.2.1 goodWhRaw goodWh rfl).1,
   (c5_roundtrip_amended.2.2.2.1 pingEvRaw pingEv rfl).1,
   (c5_roundtrip_amended.2.2.2.2 c7raw c7log rfl).1⟩

/-- C6: a raw object that is malformed for its kind — missing top-level id,
missing attributes, a missing required attribute key, or an unparseable
timestamp — makes construction fail with an error, for every one of the
five kinds; no entity is returned (the embedded constructors return an
entity or nothing, never a partial object). -/
theorem c6_malformed_fails :
    ((∀ d : Json, d.find? "id" = none → Transaction.init d = none)
      ∧ (∀ d : Json, d.find? "attributes" = none → Transaction.init d = none)
      ∧ (∀ (d : Json) (k : String), k ∈ (["status", "rawText", "description",
          "message", "settledAt", "createdAt", "amount"] : List String) →
          rawAttr d k = none → Transaction.init d = none)
      ∧ (∀ (d : Json) (s : String), rawAttr d "createdAt" = some (.str s) →
          fromisoformat s = none → Transaction.init d = none))
    ∧ ((∀ d : Json, d.find? "id" = none → Account.init d = none)
      ∧ (∀ d : Json, d.find? "attributes" = none → Account.init d = none)
      ∧ (∀ (d : Json) (k : String), k ∈ (["displayName", "accountType",
          "createdAt", "balance"] : List String) →
          rawAttr d k = none → Account.init d = none)
      ∧ (∀ (d : Json) (s : String), rawAttr d "createdAt" = some (.str s) →
          fromisoformat s = none → Account.init d = none))
    ∧ ((∀ d : Json, d.find? "id" = none → Webhook.init d = none)
      ∧ (∀ d : Json, d.find? "attributes" = none → Webhook.init d = none)
      ∧ (∀ (d : Json) (k : String), k ∈ (["url", "createdAt"] : List String) →
          rawAttr d k = none → Webhook.init d = none)
      ∧ (∀ (d : Json) (s : String), rawAttr d "createdAt" = some (.str s) →
          fromisoformat s = none → Webhook.init d = none))
    ∧ ((∀ d : Json, d.find? "id" = none → WebhookEvent.init d = none)
      ∧ (∀ d : Json, d.find? "attributes" = none → WebhookEvent.init d = none)
      ∧ (∀ (d : Json) (k : String), k ∈ (["eventType", "createdAt"] : List String) →
          rawAttr d k = none → WebhookEvent.init d = none)
      ∧ (∀ (d : Json) (s : String), rawAttr d "createdAt" = some (.str s) →
          fromisoformat s = none → WebhookEvent.init d = none))
    ∧ ((∀ d : Json, d.find? "id" = none → WebhookLog.init d = none)
      ∧ (∀ d : Json, d.find? "attributes" = none → WebhookLog.init d = none)
      ∧ (∀ (d : Json) (k : String), k ∈ (["request", "deliveryStatus",
          "createdAt", "response"] : List String) →
          rawAttr d k = none → WebhookLog.init d = none)
      ∧ (∀ (d : Json) (s : String), rawAttr d "createdAt" = some (.str s) →
          fromisoformat s = none → WebhookLog.init d = none)) := by
  refine ⟨⟨?_, ?_, ?_, ?_⟩, ⟨?_, ?_, ?_, ?_⟩, ⟨?_, ?_, ?_, ?_⟩,
    ⟨?_, ?_, ?_, ?_⟩, ⟨?_, ?_, ?_, ?_⟩⟩
  · intro d h
    cases hI : Transaction.init d with
    | none => rfl
    | some t =>
      have h1 := (transaction_init_inv d t hI).1
      rw [h] at h1
      exact Option.noConfusion h1
  · intro d h
    cases hI : Transaction.init d with
    | none => rfl
    | some t =>
      have h2 := (transaction_init_inv d t hI).2.1
      simp [rawAttr, h] at h2
  · intro d k hk h
    cases hI : Transaction.init d with
    | none => rfl
    | some t =>
      exfalso
      obtain ⟨h1, h2, h3, h4, h5, h6, h7, h8, h9, h10, h11, h12, h13⟩ :=
        transaction_init_inv d t hI
      simp only [List.mem_cons, List.not_mem_nil, or_false] at hk
      rcases hk with rfl | rfl | rfl | rfl | rfl | rfl | rfl
      · rw [h] at h2
        exact Option.noConfusion h2
      · rw [h] at h4
        exact Option.noConfusion h4
      · rw [h] at h5
        exact Option.noConfusion h5
      · rw [h] at h6
        exact Option.noConfusion h6
      · rw [h] at h7
        exact Option.noConfusion h7
      · simp only [rawTimestamp] at h8
        rw [h] at h8
        exact Option.noConfusion h8
      · simp only [rawAmountField] at h9
        rw [h] at h9
        exact Option.noConfusion h9
  · intro d s hts hbad
    cases hI : Transaction.init d with
    | none => rfl
    | some t =>
      have h8 := (transaction_init_inv d t hI).2.2.2.2.2.2.2.1
      simp [rawTimestamp, hts, Json.asStr?, hbad] at h8
  · intro d h
    cases hI : Account.init d with
    | none => rfl
    | some a =>
      have h1 := (account_init_inv d a hI).1
      rw [h] at h1
      exact Option.noConfusion h1
  · intro d h
    cases hI : Account.init d with
    | none => rfl
    | some a =>
      have h2 := (account_init_inv d a hI).2.1
      simp [rawAttr, h] at h2
  · intro d k hk h
    cases hI : Account.init d with
    | none => rfl
    | some a =>
      exfalso
      obtain ⟨h1, h2, h3, h4, h5, h6⟩ := account_init_inv d a hI
      simp only [List.mem_cons, List.not_mem_nil, or_false] at hk
      rcases hk with rfl | rfl | rfl | rfl
      · rw [h] at h2
        exact Option.noConfusion h2
      · rw [h] at h3
        exact Option.noConfusion h3
      · simp only [rawTimestamp] at h4
        rw [h] at h4
        exact Option.noConfusion h4
      · simp only [rawBalanceField] at h5
        rw [h] at h5
        exact Option.noConfusion h5
  · intro d s hts hbad
    cases hI : Account.init d with
    | none => rfl
    | some a =>
      have h4 := (account_init_inv d a hI).2.2.2.1
      simp [rawTimestamp, hts, Json.asStr?, hbad] at h4
  · intro d h
    cases hI : Webhook.init d with
    | none => rfl
    | some w =>
      have h1 := (webhook_init_inv d w hI).1
      rw [h] at h1
      exact Option.noConfusion h1
  · intro d h
    cases hI : Webhook.init d with
    | none => rfl
    | some w =>
      have h2 := (webhook_init_inv d w hI).2.1
      simp [rawAttr, h] at h2
  · intro d k hk h
    cases hI : Webhook.init d with
    | none => rfl
    | some w =>
      exfalso
      obtain ⟨h1, h2, h3, h4, h5⟩ := webhook_init_inv d w hI
      simp only [List.mem_cons, List.not_mem_nil, or_false] at hk
      rcases hk with rfl | rfl
      · rw [h] at h2
        exact Option.noConfusion h2
      · simp only [rawTimestamp] at h5
        rw [h] at h5
        exact Option.noConfusion h5
  · intro d s hts hbad
    cases hI : Webhook.init d with
    | none => rfl
    | some w =>
      have h5 := (webhook_init_inv d w hI).2.2.2.2
      simp [rawTimestamp, hts, Json.asStr?, hbad] at h5
  · intro d h
    cases hI : WebhookEvent.init d with
    | none => rfl
    | some e =>
      have h1 := (webhookEvent_init_inv d e hI).1
      rw [h] at h1
      exact Option.noConfusion h1
  · intro d h
    cases hI : WebhookEvent.init d with
    | none => rfl
    | some e =>
      have h2 := (webhookEvent_init_inv d e hI).2.1
      simp [rawAttr, h] at h2
  · intro d k hk h
    cases hI : WebhookEvent.init d with
    | none => rfl
    | some e =>
      exfalso
      obtain ⟨h1, h2, h3, h4, h5⟩ := webhookEvent_init_inv d e hI
      simp only [List.mem_cons, List.not_mem_nil, or_false] at hk
      rcases hk with rfl | rfl
      · rw [h] at h2
        exact Option.noConfusion h2
      · simp only [rawTimestamp] at h3
        rw [h] at h3
        exact Option.noConfusion h3
  · intro d s hts hbad
    cases hI : WebhookEvent.init d with
    | none => rfl
    | some e =>
      have h3 := (webhookEvent_init_inv d e hI).2.2.1
      simp [rawTimestamp, hts, Json.asStr?, hbad] at h3
  · intro d h
    cases hI : WebhookLog.init d with
    | none => rfl
    | some l =>
      have h1 := (webhookLog_init_inv d l hI).1
      rw [h] at h1
      exact Option.noConfusion h1
  · intro d h
    cases hI : WebhookLog.init d with
    | none => rfl
    | some l =>
      have h3 := (webhookLog_init_inv d l hI).2.2.1
      simp [rawAttr, h] at h3
  · intro d k hk h
    cases hI : WebhookLog.init d with
    | none => rfl
    | some l =>
      exfalso
      obtain ⟨h1, h2, h3, h4, h5, h6⟩ := webhookLog_init_inv d l hI
      simp only [List.mem_cons, List.not_mem_nil, or_false] at hk
      rcases hk with rfl | rfl | rfl | rfl
      · simp only [rawEventData] at h2
        rw [h] at h2
        exact Option.noConfusion h2
      · rw [h] at h3
        exact Option.noConfusion h3
      · simp only [rawTimestamp] at h4
        rw [h] at h4
        exact Option.noConfusion h4
      · rw [h] at h5
        exact Option.noConfusion h5
  · intro d s hts hbad
    cases hI : WebhookLog.init d with
    | none => rfl
    | some l =>
      have h4 := (webhookLog_init_inv d l hI).2.2.2.1
      simp [rawTimestamp, hts, Json.asStr?, hbad] at h4

/-- Witness for C6: for each kind, concrete objects with no attributes, a
missing required key, and an unparseable timestamp all fail, as does a
transaction with no top-level id. -/
theorem c6_witness :
    Transaction.init (Json.obj []) = none
    ∧ Transaction.init c6noattrs = none
    ∧ Transaction.init c6nostatus = none
    ∧ Transaction.init c6badts = none
    ∧ Account.init c6noattrs = none
    ∧ Account.init c6nostatus = none
    ∧ Account.init c6badts = none
    ∧ Webhook.init c6noattrs = none
    ∧ Webhook.init c6nostatus = none
    ∧ Webhook.init c6badts = none
    ∧ WebhookEvent.init c6noattrs = none
    ∧ WebhookEvent.init c6nostatus = none
    ∧ WebhookEvent.init c6badts = none
    ∧ WebhookLog.init c6noattrs = none
    ∧ WebhookLog.init c6nostatus = none
    ∧ WebhookLog.init c6badts = none :=
  ⟨c6_malformed_fails.1.1 (Json.obj []) rfl,
   c6_malformed_fails.1.2.1 c6noattrs rfl,
   c6_malformed_fails.1.2.2.1 c6nostatus "status" (by simp) rfl,
   c6_malformed_fails.1.2.2.2 c6badts "not-a-date" rfl rfl,
   c6_malformed_fails.2.1.2.1 c6noattrs rfl,
   c6_malformed_fails.2.1.2.2.1 c6nostatus "displayName" (by simp) rfl,
   c6_malformed_fails.2.1.2.2.2 c6badts "not-a-date" rfl rfl,
   c6_malformed_fails.2.2.1.2.1 c6noattrs rfl,
   c6_malformed_fails.2.2.1.2.2.1 c6nostatus "url" (by simp) rfl,
   c6_malformed_fails.2.2.1.2.2.2 c6badts "not-a-date" rfl rfl,
   c6_malformed_fails.2.2.2.1.2.1 c6noattrs rfl,
   c6_malformed_fails.2.2.2.1.2.2.1 c6nostatus "eventType" (by simp) rfl,
   c6_malformed_fails.2.2.2.1.2.2.2 c6badts "not-a-date" rfl rfl,
   c6_malformed_fails.2.2.2.2.2.1 c6noattrs rfl,
   c6_malformed_fails.2.2.2.2.2.2.1 c6nostatus "request" (by simp) rfl,
   c6_malformed_fails.2.2.2.2.2.2.2 c6badts "not-a-date" rfl rfl⟩

end UpBank
